import Mathlib

/-!
Verification of the xtrade record registry (bots and listeners).

This file is a shallow embedding of the registry core of the repository:

* the entity model (`src/bot/model.rs`),
* the typed args/view structures (`src/bot/state/input/**`, `src/bot/state/output/**`),
* the registry CRUD operations (`src/bot/state/registry.rs`, `src/bot/state/mod.rs`),
* the persistence adapter (`src/state/state.rs`),
* the serde serialization of the view types (derive attributes on the view structs),
* the message template table (`src/message.rs`),
* pagination helpers of the HTTP layer (`src/bot/api/mod.rs`).

Rust `HashMap<String, V>` is embedded as an association list `List (String × V)`
with `HashMap::insert` replace-or-append semantics.  File I/O and serde parsing
at the persistence boundary are embedded as explicit outcome parameters
(`FileReadOutcome`, `StoredDoc`), and each mutating registry operation takes a
`saveOk : Bool` flag describing whether the full-state write performed by
`AppState::save` succeeds; the operation result records how many successful
full-state writes occurred (`writes`).  UUID generation is embedded as an
explicit `freshId` argument.  Rust `f64` fields are embedded as `Rat`; none of
the verified properties depend on float rounding.
-/

namespace Xtrade

/-! ## Association-list embedding of `HashMap<String, V>` -/

/-- Lookup in an association list; embeds `HashMap::get`. -/
def mapGet (k : String) : List (String × α) → Option α
  | [] => none
  | (k', v) :: rest => if k' = k then some v else mapGet k rest

/-- Key membership; embeds `HashMap::contains_key`. -/
def mapContains (k : String) : List (String × α) → Bool
  | [] => false
  | (k', _) :: rest => if k' = k then true else mapContains k rest

/-- Insert with replace-or-append semantics; embeds `HashMap::insert`
(the previous value under an equal key is replaced). -/
def mapInsert (k : String) (v : α) : List (String × α) → List (String × α)
  | [] => [(k, v)]
  | (k', v') :: rest => if k' = k then (k, v) :: rest else (k', v') :: mapInsert k v rest

/-- Remove a key; embeds `HashMap::remove` (value dropped). -/
def mapRemove (k : String) : List (String × α) → List (String × α)
  | [] => []
  | (k', v') :: rest => if k' = k then rest else (k', v') :: mapRemove k rest

/-- The values of the map; embeds `HashMap::values`. -/
def mapValues (l : List (String × α)) : List α := l.map Prod.snd

/-- Key uniqueness of an association list (the representation invariant a
Rust `HashMap` maintains by construction). -/
def keysNodup (l : List (String × α)) : Prop := (l.map Prod.fst).Nodup

/-! ## Entity model (`src/bot/model.rs`) -/

/-- Embeds `Listener` from `src/bot/model.rs`. -/
structure Listener where
  service : String
  secret : String
  msg : String
deriving DecidableEq, Repr

/-- Embeds `Bot` from `src/bot/model.rs`.  `trading_fee` is `f64` in the
source, embedded as `Rat`. -/
structure Bot where
  bot_id : String
  name : String
  exchange : String
  api_key : Option String
  api_secret : Option String
  rest_endpoint : Option String
  rpc_endpoint : Option String
  webhook_secret : Option String
  trading_fee : Option Rat
  private_key : Option String
  contract_address : Option String
  listeners : List (String × Listener)
deriving DecidableEq, Repr

/-- Embeds `AppConfig` (`src/state/settings.rs`) to the extent the registry
uses it: only the state-file path is relevant to the persistence adapter. -/
structure AppConfig where
  state_file_path : String
deriving DecidableEq, Repr

/-- Embeds `AppState` from `src/state/state.rs`: the registry is the `bots`
map plus the running configuration. -/
structure AppState where
  bots : List (String × Bot)
  config : AppConfig
deriving DecidableEq, Repr

/-! ## Error taxonomy (`src/errors/app.rs`, `src/errors/server.rs`) -/

/-- Embeds the `AppError` variants exercised by the registry core
(`src/errors/app.rs`). -/
inductive AppError where
  | validationError (m : String)
  | notFound (m : String)
  | botNotFound (m : String)
  | botAlreadyExists (id : String)
  | listenerNotFound (m : String)
  | saveError (m : String)
deriving DecidableEq, Repr

/-- True for the variants the error taxonomy maps to HTTP 404: `NotFound`,
`BotNotFound` and `ListenerNotFound` (`src/errors/app.rs`, `status_code`). -/
def AppError.isNotFoundKind : AppError → Bool
  | .notFound _ => true
  | .botNotFound _ => true
  | .listenerNotFound _ => true
  | _ => false

/-- Embeds the `ServerError` variants used by the persistence adapter
(`src/errors/server.rs`); payloads of the I/O variants are dropped. -/
inductive ServerError where
  | fileReadError
  | fileWriteError
  | jsonParseError
  | configError
  | noFilePathProvided
deriving DecidableEq, Repr

/-! ## Typed args (`src/bot/state/input/**`) -/

/-- Embeds `BotInsertArgs` (`src/bot/state/input/bot/add.rs`). -/
structure BotInsertArgs where
  bot_id : Option String
  name : String
  exchange : String
  api_key : Option String
  api_secret : Option String
  rest_endpoint : Option String
  rpc_endpoint : Option String
  webhook_secret : Option String
  trading_fee : Option Rat
  private_key : Option String
  contract_address : Option String
deriving DecidableEq, Repr

/-- Embeds `impl From<BotInsertArgs> for Bot` (`src/bot/state/input/bot/add.rs`,
lines 103-122).  The `uuid::Uuid::new_v4()` fallback for an absent `bot_id` is
embedded as the explicit `freshId` argument.  No validation is performed. -/
def botFromInsertArgs (freshId : String) (args : BotInsertArgs) : Bot :=
  { bot_id := args.bot_id.getD freshId
    name := args.name
    exchange := args.exchange
    api_key := args.api_key
    api_secret := args.api_secret
    rest_endpoint := args.rest_endpoint
    rpc_endpoint := args.rpc_endpoint
    webhook_secret := args.webhook_secret
    trading_fee := args.trading_fee
    private_key := args.private_key
    contract_address := args.contract_address
    listeners := [] }

/-- Embeds `BotListArgs` (`src/bot/state/input/bot/list.rs`).  The `listeners`
field of the source struct is never consulted by `matches` and is omitted. -/
structure BotListArgs where
  bot_id : Option String
  name : Option String
  exchange : Option String
  api_key : Option String
  rest_endpoint : Option String
  rpc_endpoint : Option String
  trading_fee : Option Rat
  private_key : Option String
  contract_address : Option String
deriving DecidableEq, Repr

/-- Embeds `BotListArgs::matches` (`src/bot/state/input/bot/list.rs`, lines
38-67): a conjunction of `map_or(true, ...)` equality checks, one per
filterable field. -/
def BotListArgs.matches (f : BotListArgs) (bot : Bot) : Bool :=
  (f.bot_id.elim true (fun id => bot.bot_id == id))
    && (f.name.elim true (fun name => bot.name == name))
    && (f.exchange.elim true (fun exchange => bot.exchange == exchange))
    && (f.api_key.elim true (fun key => bot.api_key == some key))
    && (f.rest_endpoint.elim true (fun e => bot.rest_endpoint == some e))
    && (f.rpc_endpoint.elim true (fun e => bot.rpc_endpoint == some e))
    && (f.trading_fee.elim true (fun fee => bot.trading_fee == some fee))
    && (f.private_key.elim true (fun key => bot.private_key == some key))
    && (f.contract_address.elim true (fun a => bot.contract_address == some a))

/-- Embeds `BotUpdateArgs` (`src/bot/state/input/bot/update.rs`). -/
structure BotUpdateArgs where
  name : Option String
  exchange : Option String
  api_key : Option String
  api_secret : Option String
  rest_endpoint : Option String
  rpc_endpoint : Option String
  webhook_secret : Option String
  trading_fee : Option Rat
  private_key : Option String
  contract_address : Option String
  listeners : List (String × Listener)
deriving DecidableEq, Repr

/-- Embeds `BotUpdateArgs::apply` (`src/bot/state/input/bot/update.rs`, lines
99-134) as a pure function on `Bot`: each `if let Some(x)` assignment becomes
an `Option` case split, and the listeners map is replaced only when the
supplied map is non-empty. -/
def BotUpdateArgs.apply (args : BotUpdateArgs) (bot : Bot) : Bot :=
  { bot_id := bot.bot_id
    name := args.name.getD bot.name
    exchange := args.exchange.getD bot.exchange
    api_key := (args.api_key.map some).getD bot.api_key
    api_secret := (args.api_secret.map some).getD bot.api_secret
    rest_endpoint := (args.rest_endpoint.map some).getD bot.rest_endpoint
    rpc_endpoint := (args.rpc_endpoint.map some).getD bot.rpc_endpoint
    webhook_secret := (args.webhook_secret.map some).getD bot.webhook_secret
    trading_fee := (args.trading_fee.map some).getD bot.trading_fee
    private_key := (args.private_key.map some).getD bot.private_key
    contract_address := (args.contract_address.map some).getD bot.contract_address
    listeners := if args.listeners.isEmpty then bot.listeners else args.listeners }

/-- Embeds `BotGetArgs` (`src/bot/state/input/bot/get.rs`); also used as
`BotDeleteArgs` (re-export in `src/bot/state/input/bot/mod.rs`). -/
structure BotGetArgs where
  bot_id : String
deriving DecidableEq, Repr

/-- Embeds `ListenerInsertArgs` (`src/bot/state/input/listener/add.rs`). -/
structure ListenerInsertArgs where
  bot_id : String
  listener_id : Option String
  service : String
  secret : Option String
  msg : Option String
deriving DecidableEq, Repr

/-- Embeds `ListenerListArgs` (`src/bot/state/input/listener/list.rs`); also
used as `ListenersDeleteArgs` (re-export in
`src/bot/state/input/listener/mod.rs`). -/
structure ListenerListArgs where
  page : Option Nat
  limit : Option Nat
  bot_id : String
  listener_id : Option String
  service : Option String
deriving DecidableEq, Repr

/-- Embeds `ListenerListArgs::matches` (`src/bot/state/input/listener/list.rs`,
lines 61-71). -/
def ListenerListArgs.matches (f : ListenerListArgs) (listener_id : String)
    (listener : Listener) : Bool :=
  (f.listener_id.elim true (fun id => id == listener_id))
    && (f.service.elim true (fun service => service == listener.service))

/-- Embeds `ListenerGetArgs` (`src/bot/state/input/listener/get.rs`); also
used as `ListenerDeleteArgs`. -/
structure ListenerGetArgs where
  bot_id : String
  listener_id : String
deriving DecidableEq, Repr

/-- Embeds `ListenerUpdateArgs` (`src/bot/state/input/listener/update.rs`). -/
structure ListenerUpdateArgs where
  listener_id : String
  service : Option String
  secret : Option String
  msg : Option String
deriving DecidableEq, Repr

/-- Embeds `ListenerUpdateArgs::apply` as a pure function on `Listener`. -/
def ListenerUpdateArgs.apply (args : ListenerUpdateArgs) (l : Listener) : Listener :=
  { service := args.service.getD l.service
    secret := args.secret.getD l.secret
    msg := args.msg.getD l.msg }

/-! ## Views (`src/bot/state/output/**`) -/

/-- Embeds `BotView` (`src/bot/state/output/bot/view.rs`, lines 7-29).  The
fields carry the same data as the stored record; the `serde(skip_serializing)`
attributes are reflected in `serializeBotView` below, not here. -/
structure BotView where
  bot_id : String
  name : String
  exchange : String
  api_key : Option String
  api_secret : Option String
  rest_endpoint : Option String
  rpc_endpoint : Option String
  webhook_secret : Option String
  trading_fee : Option Rat
  private_key : Option String
  contract_address : Option String
  listeners : List (String × Listener)
deriving DecidableEq, Repr

/-- Embeds `impl From<Bot> for BotView` (`src/bot/state/output/bot/view.rs`,
lines 48-65): every field is carried over unchanged. -/
def botViewOf (bot : Bot) : BotView :=
  { bot_id := bot.bot_id
    name := bot.name
    exchange := bot.exchange
    api_key := bot.api_key
    api_secret := bot.api_secret
    rest_endpoint := bot.rest_endpoint
    rpc_endpoint := bot.rpc_endpoint
    webhook_secret := bot.webhook_secret
    trading_fee := bot.trading_fee
    private_key := bot.private_key
    contract_address := bot.contract_address
    listeners := bot.listeners }

/-- Embeds `ListenerView` (`src/bot/state/output/listener/view.rs`, lines
7-15). -/
structure ListenerView where
  bot_id : String
  listener_id : String
  service : Option String
  secret : Option String
  msg : Option String
deriving DecidableEq, Repr

/-- Embeds `impl From<(B, L, &Listener)> for ListenerView`
(`src/bot/state/output/listener/view.rs`, lines 30-44). -/
def listenerViewOf (bot_id listener_id : String) (l : Listener) : ListenerView :=
  { bot_id := bot_id
    listener_id := listener_id
    service := some l.service
    secret := some l.secret
    msg := some l.msg }

/-- Embeds `BotListView` (`src/bot/state/output/bot/list.rs`). -/
structure BotListView where
  views : List BotView
deriving DecidableEq, Repr

/-- Embeds `ListenerListView` (`src/bot/state/output/listener/view.rs`). -/
structure ListenerListView where
  views : List ListenerView
deriving DecidableEq, Repr

/-! ## Registry operations (`src/bot/state/registry.rs`)

Each mutating operation in the source ends with `self.save::<PathBuf>(None)?`
(with the notable exception of `delete_listener`).  The outcome of that
full-state write is embedded as the `saveOk : Bool` argument, and the result
type `OpOut` records the in-memory post-state together with the number of
successful full-state writes the operation performed. -/

/-- The outcome of one registry operation: the returned value or error, the
in-memory state after the operation, and how many successful full-state
writes (`AppState::save`) the operation performed. -/
structure OpOut (α : Type) where
  res : Except AppError α
  post : AppState
  writes : Nat

/-- Embeds the trailing `self.save::<PathBuf>(None)?; Ok(view)` of the
mutating operations: when the write succeeds the view is returned with one
write recorded; when it fails the `?` operator propagates the error after the
in-memory mutation has already happened. -/
def withSave (s' : AppState) (saveOk : Bool) (v : α) : OpOut α :=
  if saveOk then ⟨.ok v, s', 1⟩ else ⟨.error (.saveError "state write failed"), s', 0⟩

/-- Embeds Rust `str::trim` (as used by `validate_bot_id`) executably: drop
unicode whitespace from both ends of the character list. -/
def strTrim (s : String) : List Char :=
  ((s.data.dropWhile Char.isWhitespace).reverse.dropWhile Char.isWhitespace).reverse

/-- Embeds `validate_bot_id` (`src/bot/state/registry.rs`, lines 91-95). -/
def AppState.validate_bot_id (bot_id : String) : Except AppError Unit :=
  if (strTrim bot_id).isEmpty then .error (.validationError "Bot ID cannot be empty.")
  else .ok ()

/-- Embeds `add_bot` (`src/bot/state/registry.rs`, lines 117-125): convert
the args into a `Bot` (no field validation), reject a colliding `bot_id`,
insert, save. -/
def AppState.add_bot (s : AppState) (saveOk : Bool) (freshId : String)
    (args : BotInsertArgs) : OpOut BotView :=
  let bot := botFromInsertArgs freshId args
  if mapContains bot.bot_id s.bots then
    ⟨.error (.botAlreadyExists bot.bot_id), s, 0⟩
  else
    withSave { s with bots := mapInsert bot.bot_id bot s.bots } saveOk (botViewOf bot)

/-- Embeds `list_bots` (`src/bot/state/registry.rs`, lines 128-139): filter
the values with `matches` (an absent filter matches everything), map to
views, and report an empty result as `NotFound`. -/
def AppState.list_bots (s : AppState) (args : Option BotListArgs) :
    Except AppError BotListView :=
  let filtered_bots :=
    ((mapValues s.bots).filter
        (fun bot => args.elim true (fun f => f.matches bot))).map botViewOf
  if filtered_bots.isEmpty then .error (.notFound "No bots found.")
  else .ok ⟨filtered_bots⟩

/-- Embeds `get_bot` (`src/bot/state/registry.rs`, lines 142-144). -/
def AppState.get_bot (s : AppState) (args : BotGetArgs) : Except AppError BotView :=
  match mapGet args.bot_id s.bots with
  | none => .error (.botNotFound ("Bot with ID " ++ args.bot_id ++ " not found."))
  | some bot => .ok (botViewOf bot)

/-- Embeds `update_bot` (`src/bot/state/registry.rs`, lines 147-160; the
compiling revision in `src/bot/state/mod.rs` passes the bot id separately
from the field-merge args): look up, `args.apply`, save, return the merged
view. -/
def AppState.update_bot (s : AppState) (saveOk : Bool) (bot_id : String)
    (args : BotUpdateArgs) : OpOut BotView :=
  match mapGet bot_id s.bots with
  | none => ⟨.error (.botNotFound ("Bot with ID " ++ bot_id ++ " not found.")), s, 0⟩
  | some bot =>
    let bot' := args.apply bot
    withSave { s with bots := mapInsert bot_id bot' s.bots } saveOk (botViewOf bot')

/-- Embeds `delete_bot` (`src/bot/state/registry.rs`, lines 163-169). -/
def AppState.delete_bot (s : AppState) (saveOk : Bool) (args : BotGetArgs) :
    OpOut BotView :=
  match mapGet args.bot_id s.bots with
  | none => ⟨.error (.botNotFound ("Bot with ID " ++ args.bot_id ++ " not found.")), s, 0⟩
  | some bot =>
    withSave { s with bots := mapRemove args.bot_id s.bots } saveOk (botViewOf bot)

/-- Embeds `add_listener` (`src/bot/state/registry.rs`, lines 172-186): the
bot must exist; an absent `listener_id` falls back to a fresh UUID (the
`freshId` argument); `secret` and `msg` default to the empty string via
`unwrap_or_default()`; the listener is inserted with `HashMap::insert`
(replacing any existing entry under the same id); save; return the view. -/
def AppState.add_listener (s : AppState) (saveOk : Bool) (freshId : String)
    (args : ListenerInsertArgs) : OpOut ListenerView :=
  match mapGet args.bot_id s.bots with
  | none => ⟨.error (.botNotFound ("Bot with ID " ++ args.bot_id ++ " not found.")), s, 0⟩
  | some bot =>
    let listener_id := args.listener_id.getD freshId
    let listener : Listener :=
      { service := args.service
        secret := args.secret.getD ""
        msg := args.msg.getD "" }
    let bot' := { bot with listeners := mapInsert listener_id listener bot.listeners }
    withSave { s with bots := mapInsert args.bot_id bot' s.bots } saveOk
      (listenerViewOf args.bot_id listener_id listener)

/-- Embeds `list_listeners` (`src/bot/state/registry.rs`, lines 189-206):
validate the bot id, require the bot, filter its listeners with `matches`,
and report an empty match set as `ListenerNotFound`. -/
def AppState.list_listeners (s : AppState) (args : ListenerListArgs) :
    Except AppError ListenerListView :=
  if (strTrim args.bot_id).isEmpty then .error (.validationError "Bot ID cannot be empty.")
  else
    match mapGet args.bot_id s.bots with
    | none => .error (.botNotFound ("Bot with ID " ++ args.bot_id ++ " not found."))
    | some bot =>
      let filtered_listeners :=
        (bot.listeners.filter (fun p => args.matches p.1 p.2)).map
          (fun p => listenerViewOf args.bot_id p.1 p.2)
      if filtered_listeners.isEmpty then
        .error (.listenerNotFound "No matching listeners found.")
      else .ok ⟨filtered_listeners⟩

/-- Embeds `get_listener` (`src/bot/state/registry.rs`, lines 209-216). -/
def AppState.get_listener (s : AppState) (args : ListenerGetArgs) :
    Except AppError ListenerView :=
  match mapGet args.bot_id s.bots with
  | none => .error (.botNotFound ("Bot with ID " ++ args.bot_id ++ " not found."))
  | some bot =>
    match mapGet args.listener_id bot.listeners with
    | none => .error (.notFound ("Listener with ID " ++ args.listener_id
        ++ " not found in bot " ++ args.bot_id ++ "."))
    | some l => .ok (listenerViewOf args.bot_id args.listener_id l)

/-- Embeds `update_listener` (`src/bot/state/registry.rs`, lines 219-232). -/
def AppState.update_listener (s : AppState) (saveOk : Bool)
    (args : ListenerUpdateArgs) (bot_id : String) : OpOut ListenerView :=
  match mapGet bot_id s.bots with
  | none => ⟨.error (.botNotFound ("Bot with ID " ++ bot_id ++ " not found.")), s, 0⟩
  | some bot =>
    match mapGet args.listener_id bot.listeners with
    | none => ⟨.error (.botNotFound ("Listener with ID " ++ args.listener_id
        ++ " and Bot ID " ++ bot_id ++ " not found.")), s, 0⟩
    | some l =>
      let l' := args.apply l
      let bot' := { bot with listeners := mapInsert args.listener_id l' bot.listeners }
      withSave { s with bots := mapInsert bot_id bot' s.bots } saveOk
        (listenerViewOf bot_id args.listener_id l')

/-- Embeds `delete_listener` (`src/bot/state/registry.rs`, lines 235-244):
require the bot, remove the listener (or report `ListenerNotFound`), and
return the removed listener as a view.  Unlike every other mutating
operation in the file, the source performs NO `self.save` call here, so the
embedding records zero writes and ignores `saveOk`. -/
def AppState.delete_listener (s : AppState) (_saveOk : Bool)
    (args : ListenerGetArgs) : OpOut ListenerView :=
  match mapGet args.bot_id s.bots with
  | none => ⟨.error (.botNotFound ("Bot with ID " ++ args.bot_id ++ " not found.")), s, 0⟩
  | some bot =>
    match mapGet args.listener_id bot.listeners with
    | none => ⟨.error (.listenerNotFound ("Listener with ID " ++ args.listener_id
        ++ " not found in bot " ++ args.bot_id ++ ".")), s, 0⟩
    | some l =>
      let bot' := { bot with listeners := mapRemove args.listener_id bot.listeners }
      ⟨.ok (listenerViewOf args.bot_id args.listener_id l),
        { s with bots := mapInsert args.bot_id bot' s.bots }, 0⟩

/-- Embeds `delete_listeners` (`src/bot/state/registry.rs`, lines 247-277):
require the bot, `retain` the non-matching listeners while collecting the
matching ones as views, report an empty match set as `ListenerNotFound`,
otherwise save once. -/
def AppState.delete_listeners (s : AppState) (saveOk : Bool)
    (args : ListenerListArgs) : OpOut ListenerListView :=
  match mapGet args.bot_id s.bots with
  | none => ⟨.error (.botNotFound ("Bot with ID " ++ args.bot_id ++ " not found.")), s, 0⟩
  | some bot =>
    let deleted_listeners :=
      (bot.listeners.filter (fun p => args.matches p.1 p.2)).map
        (fun p => listenerViewOf args.bot_id p.1 p.2)
    let bot' := { bot with listeners := bot.listeners.filter (fun p => !args.matches p.1 p.2) }
    if deleted_listeners.isEmpty then
      ⟨.error (.listenerNotFound "No matching listeners found."), s, 0⟩
    else
      withSave { s with bots := mapInsert args.bot_id bot' s.bots } saveOk
        ⟨deleted_listeners⟩

/-- Embeds `clear_bots` (`src/bot/state/registry.rs`, lines 98-103). -/
def AppState.clear_bots (s : AppState) (saveOk : Bool) : OpOut Unit :=
  withSave { s with bots := [] } saveOk ()

/-- Embeds `clear_listeners` (`src/bot/state/registry.rs`, lines 106-113). -/
def AppState.clear_listeners (s : AppState) (saveOk : Bool) : OpOut Unit :=
  withSave
    { s with bots := s.bots.map (fun p => (p.1, { p.2 with listeners := [] })) }
    saveOk ()

/-! ## Serde serialization of the views

`BotView` marks `api_key`, `api_secret`, `webhook_secret` and `private_key`
with `#[serde(skip_serializing)]`; `ListenerView` marks `secret`.  All other
fields serialize in declaration order.  `Listener` (the stored model struct)
has no skip attributes at all, so a serialized `Listener` carries `service`,
`secret` and `msg`. -/

/-- A JSON value, sufficient for the serde output of the view structs. -/
inductive Json where
  | jnull
  | jstr (s : String)
  | jnum (q : Rat)
  | jobj (fields : List (String × Json))

/-- Field lookup on a JSON object (none on other forms). -/
def Json.getField (j : Json) (k : String) : Option Json :=
  match j with
  | .jobj fields => mapGet k fields
  | _ => none

/-- The string payload of a JSON string, if any. -/
def Json.asStr : Option Json → Option String
  | some (.jstr s) => some s
  | _ => none

/-- Serde output of `Option<String>`: `None` is `null`. -/
def optStrJson : Option String → Json
  | none => .jnull
  | some s => .jstr s

/-- Serde output of `Option<f64>`: `None` is `null`. -/
def optNumJson : Option Rat → Json
  | none => .jnull
  | some q => .jnum q

/-- Serde output of the stored `Listener` record (`src/bot/model.rs`): no
field is skipped, so `secret` is included. -/
def serializeListener (l : Listener) : Json :=
  .jobj [("service", .jstr l.service), ("secret", .jstr l.secret), ("msg", .jstr l.msg)]

/-- Serde output of `BotView` (`src/bot/state/output/bot/view.rs`): the four
`skip_serializing` scalars are omitted; the `listeners` map is serialized as
an object of full `Listener` records. -/
def serializeBotView (v : BotView) : Json :=
  .jobj [("bot_id", .jstr v.bot_id),
         ("name", .jstr v.name),
         ("exchange", .jstr v.exchange),
         ("rest_endpoint", optStrJson v.rest_endpoint),
         ("rpc_endpoint", optStrJson v.rpc_endpoint),
         ("trading_fee", optNumJson v.trading_fee),
         ("contract_address", optStrJson v.contract_address),
         ("listeners", .jobj (v.listeners.map (fun p => (p.1, serializeListener p.2))))]

/-- Serde output of `ListenerView` (`src/bot/state/output/listener/view.rs`):
`secret` is skipped. -/
def serializeListenerView (v : ListenerView) : Json :=
  .jobj [("bot_id", .jstr v.bot_id),
         ("listener_id", .jstr v.listener_id),
         ("service", optStrJson v.service),
         ("msg", optStrJson v.msg)]

/-! ## Message template table (`src/message.rs`) -/

/-- Embeds `MessageTemplate` (`src/message.rs`). -/
structure MessageTemplate where
  service : String
  template : String
deriving DecidableEq, Repr

/-- The default TradingView payload template registered by
`TemplateRegistry::new` (`src/message.rs`, lines 22-30). -/
def tradingViewTemplate : String :=
  "\x7b\n  \"target\": \"\x7b\x7btarget\x7d\x7d\",\n  \"ticker\": \"\x7b\x7bticker\x7d\x7d\",\n  \"action\": \"\x7b\x7bstrategy.order.action\x7d\x7d\",\n  \"order_size\": \"100%\",\n  \"position_size\": \"\x7b\x7bstrategy.position_size\x7d\x7d\",\n  \"schema\": \"2\",\n  \"timestamp\": \"\x7b\x7btime\x7d\x7d\"\n\x7d"

/-- Embeds `TemplateRegistry::new` (`src/message.rs`, lines 13-36): a map
holding a single entry, keyed by the service name TradingView. -/
def templateRegistryNew : List (String × MessageTemplate) :=
  [("TradingView", ⟨"TradingView", tradingViewTemplate⟩)]

/-- Embeds `TemplateRegistry::get_template` (`src/message.rs`, lines 38-40):
an `Option` lookup, with no fallback entry. -/
def get_template (r : List (String × MessageTemplate)) (service : String) :
    Option MessageTemplate :=
  mapGet service r

/-! ## Persistence adapter (`src/state/state.rs`) -/

/-- What a state-file document parses to: serde either decodes an `AppState`
(with `serde(default)` filling absent fields, so the empty document decodes
to the empty registry) or fails. -/
inductive StoredDoc where
  | wellFormed (bots : List (String × Bot))
  | malformed

/-- The outcome of `fs::read_to_string` on the state file: the file is
missing, some other I/O error occurred, or the file holds a document. -/
inductive FileReadOutcome where
  | notFound
  | ioError
  | content (doc : StoredDoc)

/-- The document written for a missing state file: the literal empty JSON
object, which decodes to the empty registry. -/
def emptyDoc : StoredDoc := .wellFormed []

/-- Embeds `AppState::load` (`src/state/state.rs`, lines 69-115).  `read` is
the outcome of `fs::read_to_string`; `writable` states whether the state file
can be opened for writing (used both for the first-run creation write and the
explicit writability test).  On success the result carries the loaded state
(with `config` overwritten by `app_config`) and the list of documents written
to the file during loading. -/
def AppState.load (app_config : AppConfig) (read : FileReadOutcome)
    (writable : Bool) : Except ServerError (AppState × List StoredDoc) :=
  match read with
  | .ioError => .error .fileReadError
  | .notFound =>
    if writable then
      match emptyDoc with
      | .wellFormed bots => .ok ({ bots := bots, config := app_config }, [emptyDoc])
      | .malformed => .error .jsonParseError
    else .error .fileWriteError
  | .content doc =>
    if writable then
      match doc with
      | .wellFormed bots => .ok ({ bots := bots, config := app_config }, [])
      | .malformed => .error .jsonParseError
    else .error .fileWriteError

/-! ## Pagination helpers (`src/bot/api/mod.rs`) -/

/-- Embeds the `ApiError` variants used by the pagination helpers
(`src/errors/api.rs`). -/
inductive ApiError where
  | invalidInput (m : String)
deriving DecidableEq, Repr

/-- Embeds `Pagination` (`src/bot/api/mod.rs`, lines 64-68): optional
1-based `page` and `limit`, both `usize`. -/
structure Pagination where
  page : Option Nat
  limit : Option Nat
deriving DecidableEq, Repr

/-- Embeds `Pagination::page` (`src/bot/api/mod.rs`, lines 72-74). -/
def Pagination.pageEff (p : Pagination) : Nat := p.page.getD 1

/-- Embeds `Pagination::limit` (`src/bot/api/mod.rs`, lines 77-79). -/
def Pagination.limitEff (p : Pagination) : Nat := p.limit.getD 10

/-- Embeds `Pagination::validate` (`src/bot/api/mod.rs`, lines 82-94): the
guards compare `self.page().max(1)` and `self.limit().max(1)` against 1. -/
def Pagination.validate (p : Pagination) : Except ApiError Unit :=
  if max p.pageEff 1 < 1 then
    .error (.invalidInput "Page number must be greater than or equal to 1.")
  else if max p.limitEff 1 < 1 then
    .error (.invalidInput "Limit must be greater than or equal to 1.")
  else .ok ()

/-- The usize modulus on a 64-bit target. -/
def USIZE : Nat := 2 ^ 64

/-- Wrapping usize subtraction (release-profile semantics of `a - b`),
assuming `a, b < USIZE`. -/
def usizeSub (a b : Nat) : Nat := (a + USIZE - b) % USIZE

/-- Checked usize subtraction: `none` exactly when `a - b` underflows, which
is the condition under which the debug-profile build of the source panics. -/
def usizeCheckedSub (a b : Nat) : Option Nat :=
  if b ≤ a then some (a - b) else none

/-- Embeds `apply_pagination` (`src/bot/api/mod.rs`, lines 38-49): `start`
is `(page - 1) * limit` over usize, `end` is `start + limit`, and the slice
`data[start..data.len().min(end)]` is returned when `start` is in range. -/
def apply_pagination (data : List α) (page limit : Nat) : List α :=
  let start := usizeSub page 1 * limit % USIZE
  let stop := (start + limit) % USIZE
  if start < data.length then
    ((data.take (min data.length stop)).drop start)
  else []

/-! ## Helper lemmas -/

/-- Whether an `Except` result is a success. -/
def exceptIsOk : Except ε α → Bool
  | .ok _ => true
  | .error _ => false

theorem withSave_post (s' : AppState) (k : Bool) (v : α) : (withSave s' k v).post = s' := by
  cases k <;> rfl

theorem withSave_writes (s' : AppState) (k : Bool) (v : α) :
    (withSave s' k v).writes = if k then 1 else 0 := by
  cases k <;> rfl

theorem withSave_res_ok (s' : AppState) (k : Bool) (v : α) :
    exceptIsOk (withSave s' k v).res = k := by
  cases k <;> rfl

theorem mapGet_mapInsert_self (k : String) (v : α) (l : List (String × α)) :
    mapGet k (mapInsert k v l) = some v := by
  induction l with
  | nil => simp [mapInsert, mapGet]
  | cons hd tl ih =>
    obtain ⟨k', v'⟩ := hd
    by_cases h : k' = k
    · simp [mapInsert, h, mapGet]
    · simp [mapInsert, h, mapGet, ih]

theorem mem_keys_mapInsert (a k : String) (v : α) (l : List (String × α)) :
    a ∈ (mapInsert k v l).map Prod.fst ↔ a = k ∨ a ∈ l.map Prod.fst := by
  induction l with
  | nil => simp [mapInsert]
  | cons hd tl ih =>
    obtain ⟨k', v'⟩ := hd
    simp only [mapInsert]
    by_cases h : k' = k
    · rw [if_pos h]
      subst h
      simp only [List.map_cons, List.mem_cons]
      tauto
    · rw [if_neg h]
      simp only [List.map_cons, List.mem_cons, ih]
      tauto

theorem keysNodup_mapInsert (k : String) (v : α) (l : List (String × α))
    (h : keysNodup l) : keysNodup (mapInsert k v l) := by
  induction l with
  | nil => simp [mapInsert, keysNodup]
  | cons hd tl ih =>
    obtain ⟨k', v'⟩ := hd
    simp only [keysNodup, List.map_cons, List.nodup_cons] at h
    simp only [keysNodup, mapInsert]
    by_cases hk : k' = k
    · rw [if_pos hk]
      subst hk
      simp only [List.map_cons, List.nodup_cons]
      exact h
    · rw [if_neg hk]
      have h2 := ih h.2
      simp only [List.map_cons, List.nodup_cons]
      refine ⟨?_, h2⟩
      rw [mem_keys_mapInsert]
      rintro (rfl | hm)
      · exact hk rfl
      · exact h.1 hm

theorem elim_beq_eq_true_iff {α : Type} [BEq α] [LawfulBEq α] (o : Option α) (a : α) :
    (o.elim true (fun x => a == x) = true) ↔ ∀ x, o = some x → a = x := by
  cases o <;> simp

theorem elim_beq_some_eq_true_iff {α : Type} [BEq α] [LawfulBEq α]
    (b : Option α) (o : Option α) :
    (o.elim true (fun x => b == some x) = true) ↔ ∀ x, o = some x → b = some x := by
  cases o <;> simp

/-- Modelled from the spec: a bot matches a `ListBots` filter when every
SUPPLIED predicate equals the corresponding field, absent predicates being
wildcards, with AND semantics over all supplied fields.  Spec-side
counterpart of `BotListArgs.matches`; the conjunction is left-nested to
mirror the `&&` chain. -/
def BotListArgs.matchesSpec (f : BotListArgs) (bot : Bot) : Prop :=
  ((((((((∀ x, f.bot_id = some x → bot.bot_id = x)
    ∧ (∀ x, f.name = some x → bot.name = x))
    ∧ (∀ x, f.exchange = some x → bot.exchange = x))
    ∧ (∀ x, f.api_key = some x → bot.api_key = some x))
    ∧ (∀ x, f.rest_endpoint = some x → bot.rest_endpoint = some x))
    ∧ (∀ x, f.rpc_endpoint = some x → bot.rpc_endpoint = some x))
    ∧ (∀ x, f.trading_fee = some x → bot.trading_fee = some x))
    ∧ (∀ x, f.private_key = some x → bot.private_key = some x))
    ∧ (∀ x, f.contract_address = some x → bot.contract_address = some x)

theorem matches_iff_matchesSpec (f : BotListArgs) (bot : Bot) :
    f.matches bot = true ↔ f.matchesSpec bot := by
  unfold BotListArgs.matches BotListArgs.matchesSpec
  simp only [Bool.and_eq_true, elim_beq_eq_true_iff, elim_beq_some_eq_true_iff]

theorem withSave_persist (s' : AppState) (k : Bool) (v : α) :
    (exceptIsOk (withSave s' k v).res = true → (withSave s' k v).writes = 1)
    ∧ (k = false → exceptIsOk (withSave s' k v).res = false) := by
  cases k <;> simp [withSave, exceptIsOk]

theorem add_bot_persists (s : AppState) (k : Bool) (fid : String) (a : BotInsertArgs) :
    (exceptIsOk (AppState.add_bot s k fid a).res = true →
      (AppState.add_bot s k fid a).writes = 1)
    ∧ (k = false → exceptIsOk (AppState.add_bot s k fid a).res = false) := by
  unfold AppState.add_bot
  dsimp only
  split
  · exact ⟨fun h => by simp [exceptIsOk] at h, fun _ => rfl⟩
  · exact withSave_persist _ _ _

theorem update_bot_persists (s : AppState) (k : Bool) (bid : String) (a : BotUpdateArgs) :
    (exceptIsOk (AppState.update_bot s k bid a).res = true →
      (AppState.update_bot s k bid a).writes = 1)
    ∧ (k = false → exceptIsOk (AppState.update_bot s k bid a).res = false) := by
  unfold AppState.update_bot
  dsimp only
  split
  · exact ⟨fun h => by simp [exceptIsOk] at h, fun _ => rfl⟩
  · exact withSave_persist _ _ _

theorem delete_bot_persists (s : AppState) (k : Bool) (a : BotGetArgs) :
    (exceptIsOk (AppState.delete_bot s k a).res = true →
      (AppState.delete_bot s k a).writes = 1)
    ∧ (k = false → exceptIsOk (AppState.delete_bot s k a).res = false) := by
  unfold AppState.delete_bot
  split
  · exact ⟨fun h => by simp [exceptIsOk] at h, fun _ => rfl⟩
  · exact withSave_persist _ _ _

theorem add_listener_persists (s : AppState) (k : Bool) (fid : String)
    (a : ListenerInsertArgs) :
    (exceptIsOk (AppState.add_listener s k fid a).res = true →
      (AppState.add_listener s k fid a).writes = 1)
    ∧ (k = false → exceptIsOk (AppState.add_listener s k fid a).res = false) := by
  unfold AppState.add_listener
  dsimp only
  split
  · exact ⟨fun h => by simp [exceptIsOk] at h, fun _ => rfl⟩
  · exact withSave_persist _ _ _

theorem update_listener_persists (s : AppState) (k : Bool) (a : ListenerUpdateArgs)
    (bid : String) :
    (exceptIsOk (AppState.update_listener s k a bid).res = true →
      (AppState.update_listener s k a bid).writes = 1)
    ∧ (k = false → exceptIsOk (AppState.update_listener s k a bid).res = false) := by
  unfold AppState.update_listener
  dsimp only
  split
  · exact ⟨fun h => by simp [exceptIsOk] at h, fun _ => rfl⟩
  · split
    · exact ⟨fun h => by simp [exceptIsOk] at h, fun _ => rfl⟩
    · exact withSave_persist _ _ _

theorem delete_listeners_persists (s : AppState) (k : Bool) (a : ListenerListArgs) :
    (exceptIsOk (AppState.delete_listeners s k a).res = true →
      (AppState.delete_listeners s k a).writes = 1)
    ∧ (k = false → exceptIsOk (AppState.delete_listeners s k a).res = false) := by
  unfold AppState.delete_listeners
  dsimp only
  split
  · exact ⟨fun h => by simp [exceptIsOk] at h, fun _ => rfl⟩
  · split
    · exact ⟨fun h => by simp [exceptIsOk] at h, fun _ => rfl⟩
    · exact withSave_persist _ _ _

theorem clear_bots_persists (s : AppState) (k : Bool) :
    (exceptIsOk (AppState.clear_bots s k).res = true → (AppState.clear_bots s k).writes = 1)
    ∧ (k = false → exceptIsOk (AppState.clear_bots s k).res = false) :=
  withSave_persist _ _ _

theorem clear_listeners_persists (s : AppState) (k : Bool) :
    (exceptIsOk (AppState.clear_listeners s k).res = true →
      (AppState.clear_listeners s k).writes = 1)
    ∧ (k = false → exceptIsOk (AppState.clear_listeners s k).res = false) :=
  withSave_persist _ _ _

/-! ## Concrete fixtures used by the claim theorems -/

/-- A throwaway configuration value for concrete registries. -/
def noCfg : AppConfig := ⟨""⟩

/-- The empty registry. -/
def emptyState : AppState := ⟨[], noCfg⟩

def c1Listener : Listener := ⟨"TradingView", "s", "m"⟩

def c1Bot : Bot :=
  ⟨"b", "B", "X", none, none, none, none, none, none, none, none, [("l", c1Listener)]⟩

def c1State : AppState := ⟨[("b", c1Bot)], noCfg⟩

def c2Listener : Listener := ⟨"TradingView", "sec1", "m"⟩

def c2Bot1 : Bot :=
  ⟨"b", "B", "X", some "AK", some "AS", none, none, some "WS", none, some "PK", none,
    [("l1", c2Listener)]⟩

/-- Identical to `c2Bot1` except for the stored secret of its listener. -/
def c2Bot2 : Bot := { c2Bot1 with listeners := [("l1", { c2Listener with secret := "sec2" })] }

/-- Drill into a serialized `BotView`: the `secret` string of the listener
stored under `lid` inside the serialized `listeners` object, if present. -/
def listenerSecretInView (j : Json) (lid : String) : Option String :=
  Json.asStr (((j.getField "listeners").bind (fun o => o.getField lid)).bind
    (fun o => o.getField "secret"))

def c3OldListener : Listener := ⟨"svc1", "oldsec", "oldmsg"⟩

def c3Bot : Bot :=
  ⟨"b", "B", "X", none, none, none, none, none, none, none, none, [("x", c3OldListener)]⟩

def c3State : AppState := ⟨[("b", c3Bot)], noCfg⟩

def c3Args : ListenerInsertArgs := ⟨"b", some "x", "svc2", none, none⟩

def c4Args : BotInsertArgs :=
  ⟨some "b1", "", "", none, none, none, none, none, none, none, none⟩

def c4Bot : Bot := botFromInsertArgs "fresh" c4Args

def c5Bot : Bot :=
  ⟨"bid", "Old", "X", none, none, none, none, none, some (1 / 10), none, none, []⟩

def c5State : AppState := ⟨[("bid", c5Bot)], noCfg⟩

def c5Args : BotUpdateArgs :=
  ⟨some "NewName", none, none, none, none, none, none, none, none, none, []⟩

def c6BotA : Bot := ⟨"a", "A", "X", none, none, none, none, none, none, none, none, []⟩

def c6BotB : Bot := ⟨"b", "B", "Y", none, none, none, none, none, none, none, none, []⟩

def c6State : AppState := ⟨[("a", c6BotA), ("b", c6BotB)], noCfg⟩

def c6Filter : BotListArgs := ⟨none, none, some "X", none, none, none, none, none, none⟩

def c7Bot : Bot := ⟨"b", "B", "X", none, none, none, none, none, none, none, none, []⟩

def c7State : AppState := ⟨[("b", c7Bot)], noCfg⟩

def c8Bot : Bot := ⟨"b", "B", "X", none, none, none, none, none, none, none, none, []⟩

def c8State : AppState := ⟨[("b", c8Bot)], noCfg⟩

def c8Args : ListenerInsertArgs := ⟨"b", some "l1", "TradingView", none, none⟩

theorem isEmpty_map (f : α → β) (l : List α) : (l.map f).isEmpty = l.isEmpty := by
  cases l <;> rfl

/-! ## Claim theorems -/

/-- C1: the claim asserts that every mutating registry operation performs a
full-state write before returning success and surfaces a failed write as an
error.  `delete_listener` in `src/bot/state/registry.rs` (lines 235-244)
violates this: on the concrete registry `c1State` it removes the listener and
returns `Ok` with zero full-state writes, regardless of whether a write could
have succeeded, so a failed (or absent) write is never surfaced. -/
theorem c1_delete_listener_returns_success_without_persist :
    (AppState.delete_listener c1State false ⟨"b", "l"⟩).res
        = .ok (listenerViewOf "b" "l" c1Listener)
      ∧ (AppState.delete_listener c1State false ⟨"b", "l"⟩).writes = 0
      ∧ (AppState.delete_listener c1State true ⟨"b", "l"⟩).writes = 0 :=
  ⟨rfl, rfl, rfl⟩

/-- C2 counterexample: the serialized `BotView` embeds the raw `listeners`
map, and the stored `Listener` record serializes its `secret` field, so two
records that differ only in a listener secret produce different serialized
views, and the secret is reachable in the output. -/
theorem c2_nested_listener_secret_leaks :
    listenerSecretInView (serializeBotView (botViewOf c2Bot1)) "l1" = some "sec1"
      ∧ listenerSecretInView (serializeBotView (botViewOf c2Bot2)) "l1" = some "sec2"
      ∧ serializeBotView (botViewOf c2Bot1) ≠ serializeBotView (botViewOf c2Bot2) := by
  refine ⟨rfl, rfl, fun h => ?_⟩
  have h2 : (some "sec1" : Option String) = some "sec2" :=
    congrArg (fun j => listenerSecretInView j "l1") h
  simp at h2

/-- C2 amended: the four sensitive scalars of `BotView` and the `secret` of
`ListenerView` are indeed excluded from serialization (records differing only
in those fields serialize identically, and the keys are absent at top
level); the exception is the `listeners` map nested inside `BotView`, whose
entries serialize each listener's `secret` (see the counterexample). -/
theorem c2_sensitive_scalars_redacted (v : BotView) (a b c d : Option String)
    (w : ListenerView) (sec : Option String) :
    serializeBotView
        { v with
          api_key := a
          api_secret := b
          webhook_secret := c
          private_key := d } = serializeBotView v
      ∧ serializeListenerView { w with secret := sec } = serializeListenerView w
      ∧ (serializeListenerView w).getField "secret" = none
      ∧ (serializeBotView v).getField "api_key" = none
      ∧ (serializeBotView v).getField "api_secret" = none
      ∧ (serializeBotView v).getField "webhook_secret" = none
      ∧ (serializeBotView v).getField "private_key" = none :=
  ⟨rfl, rfl, rfl, rfl, rfl, rfl, rfl⟩

/-- C3 counterexample: inserting a listener whose supplied `listener_id`
already exists in the bot succeeds and silently replaces the stored listener
(`HashMap::insert` semantics in `add_listener`): the old record `c3OldListener`
is gone and the new one sits under the same id. -/
theorem c3_add_listener_silently_overwrites :
    (AppState.add_listener c3State true "fresh" c3Args).res
        = .ok (listenerViewOf "b" "x" ⟨"svc2", "", ""⟩)
      ∧ ((mapGet "b" (AppState.add_listener c3State true "fresh" c3Args).post.bots).map
          (fun b => mapGet "x" b.listeners)) = some (some ⟨"svc2", "", ""⟩)
      ∧ mapGet "x" c3Bot.listeners = some c3OldListener
      ∧ (⟨"svc2", "", ""⟩ : Listener) ≠ c3OldListener :=
  ⟨rfl, rfl, rfl, by decide⟩

/-- C3 amended: every insert keeps `listener_id` uniqueness within the bot
(the listeners map never acquires a duplicate key), but an insert whose
supplied `listener_id` already exists silently overwrites the stored
listener with the new record rather than rejecting the request. -/
theorem c3_insert_overwrites_but_keeps_uniqueness (s : AppState) (k : Bool)
    (fid : String) (args : ListenerInsertArgs) (bot : Bot) (lid : String)
    (hbot : mapGet args.bot_id s.bots = some bot)
    (hlid : args.listener_id = some lid) :
    ∃ bot', mapGet args.bot_id (AppState.add_listener s k fid args).post.bots = some bot'
      ∧ mapGet lid bot'.listeners
          = some ⟨args.service, args.secret.getD "", args.msg.getD ""⟩
      ∧ (keysNodup bot.listeners → keysNodup bot'.listeners) := by
  refine ⟨{ bot with listeners := mapInsert lid (Listener.mk args.service (args.secret.getD "") (args.msg.getD "")) bot.listeners }, ?_, ?_, ?_⟩
  · simp only [AppState.add_listener, hbot, hlid, Option.getD_some, withSave_post]
    exact mapGet_mapInsert_self _ _ _
  · exact mapGet_mapInsert_self _ _ _
  · exact fun hnd => keysNodup_mapInsert _ _ _ hnd

/-- C3 witness: the amended statement instantiated on the concrete registry
of the counterexample. -/
theorem c3_insert_witness :
    mapGet "b" c3State.bots = some c3Bot ∧ c3Args.listener_id = some "x"
      ∧ ∃ bot',
          mapGet "b" (AppState.add_listener c3State true "fr" c3Args).post.bots = some bot'
          ∧ mapGet "x" bot'.listeners = some ⟨"svc2", "", ""⟩
          ∧ (keysNodup c3Bot.listeners → keysNodup bot'.listeners) := by
  have h := c3_insert_overwrites_but_keeps_uniqueness c3State true "fr" c3Args c3Bot "x"
    rfl rfl
  exact ⟨rfl, rfl, h⟩

/-- C4: the claim asserts that `CreateBot` rejects an empty `name` or
`exchange` with a `ValidationError` and inserts nothing.  The `add_bot` of
`src/bot/state/registry.rs` (lines 117-125) performs no such validation (the
`#[validate(length(min = 1))]` attributes on `BotInsertArgs` are never
invoked on this path): on the empty registry, args with empty `name` and
`exchange` produce a successful insert of a bot with empty fields. -/
theorem c4_add_bot_accepts_empty_name_and_exchange :
    (AppState.add_bot emptyState true "fresh" c4Args).res = .ok (botViewOf c4Bot)
      ∧ mapGet "b1" (AppState.add_bot emptyState true "fresh" c4Args).post.bots = some c4Bot
      ∧ c4Bot.name = "" ∧ c4Bot.exchange = "" :=
  ⟨rfl, rfl, rfl, rfl⟩

/-- C5: partial update is a frame-preserving merge.  After `update_bot` the
stored record is exactly `args.apply bot`, and for every scalar field an
absent args entry leaves the stored value unchanged while a supplied entry
sets exactly the supplied value. -/
theorem c5_partial_update_frame (s : AppState) (k : Bool) (bot_id : String)
    (args : BotUpdateArgs) (bot : Bot)
    (h : mapGet bot_id s.bots = some bot) :
    mapGet bot_id (AppState.update_bot s k bot_id args).post.bots = some (args.apply bot)
      ∧ (args.name = none → (args.apply bot).name = bot.name)
      ∧ (∀ v, args.name = some v → (args.apply bot).name = v)
      ∧ (args.exchange = none → (args.apply bot).exchange = bot.exchange)
      ∧ (∀ v, args.exchange = some v → (args.apply bot).exchange = v)
      ∧ (args.api_key = none → (args.apply bot).api_key = bot.api_key)
      ∧ (∀ v, args.api_key = some v → (args.apply bot).api_key = some v)
      ∧ (args.api_secret = none → (args.apply bot).api_secret = bot.api_secret)
      ∧ (∀ v, args.api_secret = some v → (args.apply bot).api_secret = some v)
      ∧ (args.rest_endpoint = none → (args.apply bot).rest_endpoint = bot.rest_endpoint)
      ∧ (∀ v, args.rest_endpoint = some v → (args.apply bot).rest_endpoint = some v)
      ∧ (args.rpc_endpoint = none → (args.apply bot).rpc_endpoint = bot.rpc_endpoint)
      ∧ (∀ v, args.rpc_endpoint = some v → (args.apply bot).rpc_endpoint = some v)
      ∧ (args.webhook_secret = none → (args.apply bot).webhook_secret = bot.webhook_secret)
      ∧ (∀ v, args.webhook_secret = some v → (args.apply bot).webhook_secret = some v)
      ∧ (args.trading_fee = none → (args.apply bot).trading_fee = bot.trading_fee)
      ∧ (∀ v, args.trading_fee = some v → (args.apply bot).trading_fee = some v)
      ∧ (args.private_key = none → (args.apply bot).private_key = bot.private_key)
      ∧ (∀ v, args.private_key = some v → (args.apply bot).private_key = some v)
      ∧ (args.contract_address = none →
          (args.apply bot).contract_address = bot.contract_address)
      ∧ (∀ v, args.contract_address = some v →
          (args.apply bot).contract_address = some v) := by
  constructor
  · simp only [AppState.update_bot, h, withSave_post]
    exact mapGet_mapInsert_self _ _ _
  · refine ⟨?_, ?_, ?_, ?_, ?_, ?_, ?_, ?_, ?_, ?_, ?_, ?_, ?_, ?_, ?_, ?_, ?_, ?_, ?_, ?_⟩ <;>
      first
        | (intro hx; simp [BotUpdateArgs.apply, hx])
        | (intro v hx; simp [BotUpdateArgs.apply, hx])

/-- C5 witness: updating only the name leaves the trading fee untouched and
sets exactly the supplied name. -/
theorem c5_partial_update_frame_witness :
    mapGet "bid" c5State.bots = some c5Bot
      ∧ (c5Args.apply c5Bot).name = "NewName"
      ∧ (c5Args.apply c5Bot).trading_fee = c5Bot.trading_fee := by
  obtain ⟨hA, hB1, hB2, hC1, hC2, hD1, hD2, hE1, hE2, hF1, hF2, hG1, hG2, hH1, hH2,
    hI1, hI2, hJ1, hJ2, hK1, hK2⟩ :=
    c5_partial_update_frame c5State true "bid" c5Args c5Bot rfl
  exact ⟨rfl, hB2 "NewName" rfl, hI1 rfl⟩

/-- C6: `matches` is exactly the spec-side conjunction (supplied predicates
must equal the corresponding field, absent predicates are wildcards), and a
view appears in a successful `list_bots` result exactly when some stored bot
satisfies that conjunction and projects to it. -/
theorem c6_filter_and_semantics :
    (∀ (f : BotListArgs) (bot : Bot), f.matches bot = true ↔ f.matchesSpec bot)
      ∧ (∀ (s : AppState) (f : BotListArgs) (vs : List BotView) (v : BotView),
          AppState.list_bots s (some f) = .ok ⟨vs⟩ →
          (v ∈ vs ↔ ∃ bot, bot ∈ mapValues s.bots ∧ f.matchesSpec bot ∧ v = botViewOf bot)) := by
  refine ⟨matches_iff_matchesSpec, ?_⟩
  intro s f vs v h
  simp only [AppState.list_bots] at h
  split at h
  · simp at h
  · simp only [Except.ok.injEq, BotListView.mk.injEq] at h
    subst h
    simp only [List.mem_map, List.mem_filter, Option.elim, matches_iff_matchesSpec]
    constructor
    · rintro ⟨bot, ⟨hm, hmat⟩, rfl⟩
      exact ⟨bot, hm, hmat, rfl⟩
    · rintro ⟨bot, hm, hmat, rfl⟩
      exact ⟨bot, ⟨hm, hmat⟩, rfl⟩

/-- C6 witness: the spec example, a registry with bots on exchanges X and Y
filtered by exchange X, returns exactly the X bot. -/
theorem c6_filter_and_semantics_witness :
    AppState.list_bots c6State (some c6Filter) = .ok ⟨[botViewOf c6BotA]⟩
      ∧ (botViewOf c6BotA ∈ [botViewOf c6BotA] ↔
          ∃ bot, bot ∈ mapValues c6State.bots ∧ c6Filter.matchesSpec bot
            ∧ botViewOf c6BotA = botViewOf bot) := by
  have e : AppState.list_bots c6State (some c6Filter) = .ok ⟨[botViewOf c6BotA]⟩ := rfl
  exact ⟨e, c6_filter_and_semantics.2 c6State c6Filter [botViewOf c6BotA] (botViewOf c6BotA) e⟩

/-- C7: an empty match set is reported as an error of NotFound kind rather
than an empty success list, for `list_bots` (no bot matches) and for
`list_listeners` on an existing bot (no listener matches). -/
theorem c7_empty_result_reported_not_found :
    (∀ (s : AppState) (args : Option BotListArgs),
        ((mapValues s.bots).filter
            (fun bot => args.elim true (fun f => f.matches bot))).isEmpty = true →
        AppState.list_bots s args = .error (.notFound "No bots found.")
          ∧ (AppError.notFound "No bots found.").isNotFoundKind = true)
      ∧ (∀ (s : AppState) (args : ListenerListArgs) (bot : Bot),
          (strTrim args.bot_id).isEmpty = false →
          mapGet args.bot_id s.bots = some bot →
          (bot.listeners.filter (fun p => args.matches p.1 p.2)).isEmpty = true →
          AppState.list_listeners s args
              = .error (.listenerNotFound "No matching listeners found.")
            ∧ (AppError.listenerNotFound "No matching listeners found.").isNotFoundKind
                = true) := by
  constructor
  · intro s args he
    refine ⟨?_, rfl⟩
    simp only [AppState.list_bots]
    rw [if_pos ((isEmpty_map _ _).trans he)]
  · intro s args bot hb hbot he
    refine ⟨?_, rfl⟩
    simp only [AppState.list_listeners, hb, hbot, Bool.false_eq_true, if_false]
    rw [if_pos ((isEmpty_map _ _).trans he)]

/-- C7 witness: the empty registry with no filter, and a bot with no
listeners queried with an empty filter. -/
theorem c7_empty_result_witness :
    AppState.list_bots emptyState none = .error (.notFound "No bots found.")
      ∧ AppState.list_listeners c7State ⟨none, none, "b", none, none⟩
          = .error (.listenerNotFound "No matching listeners found.") := by
  have h1 := (c7_empty_result_reported_not_found.1 emptyState none rfl).1
  have h2 := (c7_empty_result_reported_not_found.2 c7State
    ⟨none, none, "b", none, none⟩ c7Bot rfl rfl rfl).1
  exact ⟨h1, h2⟩

/-- C8 counterexample: `add_listener` with absent `msg` stores the empty
string (`unwrap_or_default`), not the service-keyed template: for service
TradingView the template table has a non-empty entry, yet the created
listener's `msg` is the empty string. -/
theorem c8_default_msg_not_template :
    (AppState.add_listener c8State true "fr" c8Args).res
        = .ok (listenerViewOf "b" "l1" ⟨"TradingView", "", ""⟩)
      ∧ ((mapGet "b" (AppState.add_listener c8State true "fr" c8Args).post.bots).map
          (fun b => mapGet "l1" b.listeners)) = some (some ⟨"TradingView", "", ""⟩)
      ∧ get_template templateRegistryNew "TradingView"
          = some ⟨"TradingView", tradingViewTemplate⟩
      ∧ ("" : String) ≠ tradingViewTemplate :=
  ⟨rfl, rfl, rfl, by decide⟩

/-- C8 amended: when `msg` is absent, the created listener's `msg` is the
deterministic default empty string regardless of `service`; the template
table of `src/message.rs` is not consulted. -/
theorem c8_default_msg_empty_string (s : AppState) (k : Bool) (fid : String)
    (args : ListenerInsertArgs) (bot : Bot)
    (hbot : mapGet args.bot_id s.bots = some bot) (hmsg : args.msg = none) :
    ∃ bot', mapGet args.bot_id (AppState.add_listener s k fid args).post.bots = some bot'
      ∧ mapGet (args.listener_id.getD fid) bot'.listeners
          = some ⟨args.service, args.secret.getD "", ""⟩ := by
  refine ⟨{ bot with listeners := mapInsert (args.listener_id.getD fid) (Listener.mk args.service (args.secret.getD "") (args.msg.getD "")) bot.listeners }, ?_, ?_⟩
  · simp only [AppState.add_listener, hbot, withSave_post]
    exact mapGet_mapInsert_self _ _ _
  · rw [mapGet_mapInsert_self, hmsg]
    rfl

/-- C8 witness: the amended statement on the concrete TradingView insert. -/
theorem c8_default_msg_empty_string_witness :
    mapGet "b" c8State.bots = some c8Bot ∧ c8Args.msg = none
      ∧ ∃ bot',
          mapGet "b" (AppState.add_listener c8State true "fr" c8Args).post.bots = some bot'
          ∧ mapGet "l1" bot'.listeners = some ⟨"TradingView", "", ""⟩ := by
  have h := c8_default_msg_empty_string c8State true "fr" c8Args c8Bot rfl rfl
  exact ⟨rfl, rfl, h⟩

/-- C9: a missing state file is first-run initialization, not an error: the
empty registry is returned and the empty document is written back.  A file
whose contents do not parse is a fatal parse error, and `load` never falls
back to returning a registry in that case. -/
theorem c9_load_first_run_and_parse_error :
    (∀ cfg : AppConfig, AppState.load cfg .notFound true
        = .ok ({ bots := [], config := cfg }, [emptyDoc]))
      ∧ (∀ cfg : AppConfig, AppState.load cfg (.content .malformed) true
          = .error .jsonParseError)
      ∧ (∀ (cfg : AppConfig) (w : Bool),
          AppState.load cfg (.content .malformed) w
            = .error (if w then .jsonParseError else .fileWriteError)) := by
  refine ⟨fun cfg => rfl, fun cfg => rfl, ?_⟩
  intro cfg w
  cases w <;> rfl

/-- C10: `Pagination::validate` accepts every input because its guards
compare `max (page) 1` and `max (limit) 1` against 1, which never succeeds
over usize; in particular `page = 0` passes validation, and the `page - 1`
subtraction evaluated by `apply_pagination` underflows for that input (the
checked subtraction has no result), so the arithmetic-error branch the guard
was meant to rule out is reachable through validated input. -/
theorem c10_validate_vacuous_and_underflow :
    (∀ p : Pagination, Pagination.validate p = .ok ())
      ∧ Pagination.validate ⟨some 0, some 10⟩ = .ok ()
      ∧ Pagination.pageEff ⟨some 0, some 10⟩ = 0
      ∧ usizeCheckedSub (Pagination.pageEff ⟨some 0, some 10⟩) 1 = none
      ∧ apply_pagination [0] (Pagination.pageEff ⟨some 0, some 10⟩)
          (Pagination.limitEff ⟨some 0, some 10⟩) = ([] : List Nat) := by
  refine ⟨?_, rfl, rfl, rfl, by decide⟩
  intro p
  unfold Pagination.validate
  rw [if_neg (Nat.not_lt.mpr (le_max_right _ 1)), if_neg (Nat.not_lt.mpr (le_max_right _ 1))]

end Xtrade
